import Mathlib

/-
  Verification of the capture/selection/deletion lifecycle of the camera
  capture page (src/src/app/page.tsx).

  The component `Home` owns three pieces of state:
    * `stream`         : MediaStream | null   (the active capture session)
    * `error`          : string | null        (the acquisition error message)
    * `capturedImages` : CapturedImage[]      (the gallery)
  and five event handlers: `startCamera`, `stopCamera`, `captureImage`,
  `toggleImageSelection`, `deleteSelectedImages`.  Each handler is embedded
  below as a pure state transformer; the asynchronous / external parts
  (getUserMedia resolution, the sampled video frame, `Date.now()`,
  `canvas.getContext`) are passed in as explicit inputs.
-/

namespace CameraApp

/-- One still frame, as in `interface CapturedImage` of page.tsx:
id, data URL payload, selection flag, creation timestamp. -/
structure CapturedImage where
  id : String
  dataUrl : String
  selected : Bool
  timestamp : Nat
  deriving DecidableEq

/-- The three state slices held by the `Home` component.  The MediaStream
handle is abstract; only its presence or absence matters here, so it is
modelled as an `Option Nat` tag. -/
structure CaptureState where
  stream : Option Nat
  error : Option String
  capturedImages : List CapturedImage
  deriving DecidableEq

/-- Resolution of the `navigator.mediaDevices.getUserMedia` promise:
either a live stream handle or a rejection. -/
inductive StartOutcome where
  | success (handle : Nat)
  | failure
  deriving DecidableEq

/-- External inputs consumed by one `captureImage` call: the value of
`Date.now()`, the frame sampled into `canvas.toDataURL("image/jpeg")`,
and whether `canvas.getContext("2d")` returned a context. -/
structure CaptureEnv where
  now : Nat
  frameDataUrl : String
  contextAvailable : Bool
  deriving DecidableEq

/-- The fixed user-facing message stored on acquisition failure. -/
def cameraErrorMessage : String :=
  "カメラへのアクセスに失敗しました。ブラウザの設定を確認してください。"

/-- Handler `startCamera`: clears the error, then either stores the
granted stream (success) or stores the fixed error message (failure). -/
def startCamera (o : StartOutcome) (s : CaptureState) : CaptureState :=
  let cleared := { s with error := none }
  match o with
  | StartOutcome.success h => { cleared with stream := some h }
  | StartOutcome.failure => { cleared with error := some cameraErrorMessage }

/-- Handler `stopCamera`: if a stream is present, stop its tracks (a
side effect outside this state) and clear it; otherwise do nothing. -/
def stopCamera (s : CaptureState) : CaptureState :=
  if s.stream.isSome then { s with stream := none } else s

/-- Id generation at capture time: the template literal `img-${Date.now()}`. -/
def mkImageId (now : Nat) : String := "img-" ++ toString now

/-- The `newImage` record built inside `captureImage`: fresh id from the
current time, the encoded frame, `selected: false`, current timestamp. -/
def mkCapturedImage (env : CaptureEnv) : CapturedImage :=
  { id := mkImageId env.now
    dataUrl := env.frameDataUrl
    selected := false
    timestamp := env.now }

/-- Handler `captureImage`.  The guard `if (videoRef.current)` holds
exactly when the video element is rendered, which page.tsx ties to the
stream being present (the `<video>` is mounted only in the
`stream ? ... : ...` branch and the ref is cleared on unmount).  Inside,
`if (context)` guards on `canvas.getContext("2d")`; on success the new
record is appended with `[...prev, newImage]`. -/
def captureImage (env : CaptureEnv) (s : CaptureState) : CaptureState :=
  if s.stream.isSome then
    if env.contextAvailable then
      { s with capturedImages := s.capturedImages ++ [mkCapturedImage env] }
    else s
  else s

/-- The per-entry function mapped over the gallery by
`toggleImageSelection`: `img.id === id ? { ...img, selected: !img.selected } : img`. -/
def toggleEntry (id : String) (img : CapturedImage) : CapturedImage :=
  if img.id = id then { img with selected := !img.selected } else img

/-- Handler `toggleImageSelection`: map `toggleEntry` over the gallery. -/
def toggleImageSelection (id : String) (s : CaptureState) : CaptureState :=
  { s with capturedImages := s.capturedImages.map (toggleEntry id) }

/-- Handler `deleteSelectedImages`: `prev.filter((img) => !img.selected)`. -/
def deleteSelectedImages (s : CaptureState) : CaptureState :=
  { s with capturedImages := s.capturedImages.filter (fun img => !img.selected) }

/-- The render condition of the delete affordance (page.tsx line 150):
`capturedImages.some((img) => img.selected)`. -/
def showDeleteButton (s : CaptureState) : Bool :=
  s.capturedImages.any (fun img => img.selected)

/-- The user events the rendered page can deliver to the handlers. -/
inductive Event where
  | start (o : StartOutcome)
  | stop
  | capture (env : CaptureEnv)
  | toggle (id : String)
  | deleteSel
  deriving DecidableEq

/-- One UI step.  The start button is rendered only in the `!stream`
branch of page.tsx, so a `start` event can only fire while no stream is
active; the other handlers carry their own guards. -/
def step (s : CaptureState) (e : Event) : CaptureState :=
  match e with
  | Event.start o => if s.stream.isNone then startCamera o s else s
  | Event.stop => stopCamera s
  | Event.capture env => captureImage env s
  | Event.toggle id => toggleImageSelection id s
  | Event.deleteSel => deleteSelectedImages s

/-- The initial component state: `useState(null)`, `useState(null)`,
`useState([])`. -/
def initState : CaptureState :=
  { stream := none, error := none, capturedImages := [] }

/-- Run a sequence of UI events from a state. -/
def run (evs : List Event) (s : CaptureState) : CaptureState :=
  evs.foldl step s

/-- Run a sequence of `captureImage` calls with the given inputs. -/
def captureRun (envs : List CaptureEnv) (s : CaptureState) : CaptureState :=
  envs.foldl (fun st e => captureImage e st) s

/-- Session and error never both present: the exclusivity invariant. -/
def SessionErrorExclusive (s : CaptureState) : Prop :=
  s.stream = none ∨ s.error = none

/- Helper lemmas about the handlers. -/

theorem stopCamera_stream (s : CaptureState) : (stopCamera s).stream = none := by
  cases h : s.stream <;> simp [stopCamera, h]

theorem stopCamera_error (s : CaptureState) : (stopCamera s).error = s.error := by
  unfold stopCamera
  split <;> rfl

theorem stopCamera_images (s : CaptureState) :
    (stopCamera s).capturedImages = s.capturedImages := by
  unfold stopCamera
  split <;> rfl

theorem stopCamera_noop (s : CaptureState) (h : s.stream = none) :
    stopCamera s = s := by
  simp [stopCamera, h]

theorem captureImage_stream (env : CaptureEnv) (s : CaptureState) :
    (captureImage env s).stream = s.stream := by
  unfold captureImage
  split
  · split <;> rfl
  · rfl

theorem captureImage_error (env : CaptureEnv) (s : CaptureState) :
    (captureImage env s).error = s.error := by
  unfold captureImage
  split
  · split <;> rfl
  · rfl

theorem captureImage_noStream (env : CaptureEnv) (s : CaptureState)
    (h : s.stream = none) : captureImage env s = s := by
  simp [captureImage, h]

theorem captureImage_eq (env : CaptureEnv) (s : CaptureState)
    (h1 : s.stream.isSome = true) (h2 : env.contextAvailable = true) :
    captureImage env s
      = { s with capturedImages := s.capturedImages ++ [mkCapturedImage env] } := by
  simp [captureImage, h1, h2]

theorem toggleEntry_noop (id : String) (img : CapturedImage) (h : ¬ img.id = id) :
    toggleEntry id img = img := by
  simp [toggleEntry, h]

theorem toggleEntry_involutive (id : String) (img : CapturedImage) :
    toggleEntry id (toggleEntry id img) = img := by
  cases img with
  | mk i d sel t => by_cases h : i = id <;> simp [toggleEntry, h]

theorem map_toggleEntry_twice (id : String) (l : List CapturedImage) :
    List.map (toggleEntry id ∘ toggleEntry id) l = l := by
  induction l with
  | nil => rfl
  | cons a tl ih => simp [Function.comp, toggleEntry_involutive, ih]

theorem map_toggleEntry_noop (id : String) (l : List CapturedImage)
    (h : ∀ img ∈ l, ¬ img.id = id) : l.map (toggleEntry id) = l := by
  induction l with
  | nil => rfl
  | cons a tl ih =>
    have ha : toggleEntry id a = a := toggleEntry_noop id a (h a (by simp))
    have htl : tl.map (toggleEntry id) = tl := ih (fun x hx => h x (by simp [hx]))
    simp [ha, htl]

theorem deleteSelected_idem (s : CaptureState) :
    deleteSelectedImages (deleteSelectedImages s) = deleteSelectedImages s := by
  cases s with
  | mk st er l => simp [deleteSelectedImages, List.filter_filter]

/-- Claim C10: stop() modifies only the CaptureSession slice of state;
the Gallery (every entry and their order) and the ErrorState message are
exactly as they were before the call. -/
theorem stopCamera_frame_effect (s : CaptureState) :
    (stopCamera s).capturedImages = s.capturedImages ∧
    (stopCamera s).error = s.error :=
  ⟨stopCamera_images s, stopCamera_error s⟩

/-- Claim C2: deleteSelected() removes exactly the entries with
selected = true (membership characterisation), keeps the rest in their
relative order unchanged (sublist of the original), is idempotent, and
is a no-op when nothing is selected. -/
theorem deleteSelected_correct (s : CaptureState) :
    List.Sublist (deleteSelectedImages s).capturedImages s.capturedImages ∧
    (∀ img, img ∈ (deleteSelectedImages s).capturedImages ↔
      img ∈ s.capturedImages ∧ img.selected = false) ∧
    deleteSelectedImages (deleteSelectedImages s) = deleteSelectedImages s ∧
    ((∀ img ∈ s.capturedImages, img.selected = false) → deleteSelectedImages s = s) := by
  refine ⟨List.filter_sublist _, ?_, deleteSelected_idem s, ?_⟩
  · intro img
    simp [deleteSelectedImages, List.mem_filter]
  · intro h
    cases s with
    | mk st er l =>
      simp only [deleteSelectedImages]
      congr 1
      exact List.filter_eq_self.mpr (fun a ha => by simp [h a ha])

/-- Witness for C2: deleting twice on a concrete two-image gallery
equals deleting once. -/
theorem deleteSelected_correct_witness :
    deleteSelectedImages (deleteSelectedImages
        (⟨none, none, [⟨"img-1", "a", true, 1⟩, ⟨"img-2", "b", false, 2⟩]⟩ : CaptureState))
      = deleteSelectedImages
          ⟨none, none, [⟨"img-1", "a", true, 1⟩, ⟨"img-2", "b", false, 2⟩]⟩ :=
  (deleteSelected_correct _).2.2.1

/-- Claim C9: after deleteSelected() every remaining entry has
selected = false, the delete affordance is hidden, and a second
deleteSelected() removes nothing. -/
theorem deleteSelected_clears (s : CaptureState) :
    (∀ img ∈ (deleteSelectedImages s).capturedImages, img.selected = false) ∧
    showDeleteButton (deleteSelectedImages s) = false ∧
    deleteSelectedImages (deleteSelectedImages s) = deleteSelectedImages s := by
  refine ⟨?_, ?_, deleteSelected_idem s⟩
  · intro img h
    simp [deleteSelectedImages, List.mem_filter] at h
    exact h.2
  · simp only [showDeleteButton, deleteSelectedImages]
    rw [Bool.eq_false_iff]
    intro h
    rcases List.any_eq_true.mp h with ⟨img, hmem, hsel⟩
    rcases List.mem_filter.mp hmem with ⟨_, hns⟩
    simp [hsel] at hns

/-- Witness for C9: on a concrete gallery with one selected entry the
delete affordance is hidden after deletion. -/
theorem deleteSelected_clears_witness :
    showDeleteButton (deleteSelectedImages
        (⟨none, none, [⟨"img-1", "a", true, 1⟩, ⟨"img-2", "b", false, 2⟩]⟩ : CaptureState))
      = false :=
  (deleteSelected_clears _).2.1

/-- Claim C3: toggleSelection(id) is its own inverse, and a single
application changes the selected value of no entry other than those whose
id matches. -/
theorem toggleSelection_involution (id : String) (s : CaptureState) :
    toggleImageSelection id (toggleImageSelection id s) = s ∧
    (∀ (i : Nat) (img : CapturedImage), s.capturedImages[i]? = some img →
      ¬ img.id = id →
      ((toggleImageSelection id s).capturedImages[i]?.map (fun im => im.selected))
        = some img.selected) := by
  constructor
  · cases s with
    | mk st er l => simp [toggleImageSelection, List.map_map, map_toggleEntry_twice]
  · intro i img h hne
    simp [toggleImageSelection, List.getElem?_map, h, toggleEntry_noop id img hne]

/-- Witness for C3: toggling a concrete id twice on a concrete gallery
restores the original state. -/
theorem toggleSelection_involution_witness :
    toggleImageSelection "img-1" (toggleImageSelection "img-1"
        (⟨none, none, [⟨"img-1", "a", false, 1⟩, ⟨"img-2", "b", true, 2⟩]⟩ : CaptureState))
      = ⟨none, none, [⟨"img-1", "a", false, 1⟩, ⟨"img-2", "b", true, 2⟩]⟩ :=
  (toggleSelection_involution "img-1" _).1

/-- Claim C4: toggleSelection(id) flips exactly the selected flag of the
entries whose id matches, leaves every non-matching entry untouched at
its position, and is a no-op when no entry has that id. -/
theorem toggleSelection_frame (id : String) (s : CaptureState) :
    (toggleImageSelection id s).capturedImages.length = s.capturedImages.length ∧
    (∀ (i : Nat) (img : CapturedImage), s.capturedImages[i]? = some img →
      (¬ img.id = id → (toggleImageSelection id s).capturedImages[i]? = some img) ∧
      (img.id = id →
        (toggleImageSelection id s).capturedImages[i]?
          = some { img with selected := !img.selected })) ∧
    ((∀ img ∈ s.capturedImages, ¬ img.id = id) → toggleImageSelection id s = s) := by
  refine ⟨by simp [toggleImageSelection], ?_, ?_⟩
  · intro i img h
    constructor
    · intro hne
      simp [toggleImageSelection, List.getElem?_map, h, toggleEntry_noop id img hne]
    · intro heq
      simp [toggleImageSelection, List.getElem?_map, h, toggleEntry, heq]
  · intro h
    cases s with
    | mk st er l =>
      simp only [toggleImageSelection]
      congr 1
      exact map_toggleEntry_noop id l h

/-- Witness for C4: toggling an id that appears nowhere in a concrete
gallery leaves the state unchanged. -/
theorem toggleSelection_frame_witness :
    toggleImageSelection "img-9"
        (⟨none, none, [⟨"img-1", "a", false, 1⟩, ⟨"img-2", "b", true, 2⟩]⟩ : CaptureState)
      = ⟨none, none, [⟨"img-1", "a", false, 1⟩, ⟨"img-2", "b", true, 2⟩]⟩ :=
  (toggleSelection_frame "img-9" _).2.2 (by decide)

theorem captureRun_cons (e : CaptureEnv) (tl : List CaptureEnv) (s : CaptureState) :
    captureRun (e :: tl) s = captureRun tl (captureImage e s) := rfl

theorem captureRun_images (envs : List CaptureEnv) (s : CaptureState)
    (hstream : s.stream.isSome = true)
    (hctx : ∀ e ∈ envs, e.contextAvailable = true) :
    (captureRun envs s).capturedImages
      = s.capturedImages ++ envs.map mkCapturedImage := by
  induction envs generalizing s with
  | nil => simp [captureRun]
  | cons e tl ih =>
    rw [captureRun_cons, captureImage_eq e s hstream (hctx e (by simp))]
    rw [ih { s with capturedImages := s.capturedImages ++ [mkCapturedImage e] }
      hstream (fun x hx => hctx x (by simp [hx]))]
    simp

/-- Claim C1 (counterexample): with the feed bound, two capture() calls
within the same Date.now() tick produce two entries sharing the id
img-0, so the ids are not pairwise distinct; and a call whose canvas has
no 2d context appends nothing, so the length does not always grow by one
per call. -/
theorem capture_same_tick_duplicate_ids :
    ((captureRun [⟨0, "u", true⟩, ⟨0, "v", true⟩]
        ⟨some 0, none, []⟩).capturedImages.map (fun img => img.id))
      = ["img-0", "img-0"] ∧
    ¬ (["img-0", "img-0"] : List String).Nodup ∧
    (captureImage ⟨5, "w", false⟩ ⟨some 0, none, []⟩).capturedImages.length = 0 := by
  decide

/-- Claim C1 (amended): while a feed is bound and the 2d drawing context
is available, every capture() call appends exactly one new CapturedImage
to the end of the Gallery, never mutating or removing existing entries;
and the ids of all entries are pairwise distinct provided the existing
ids together with the generated img-N ids (N the capture tick) are
pairwise distinct
(which two captures in the same Date.now() tick violate). -/
theorem captureRun_appends_all (envs : List CaptureEnv) (s : CaptureState)
    (hstream : s.stream.isSome = true)
    (hctx : ∀ e ∈ envs, e.contextAvailable = true)
    (hids : ((s.capturedImages.map (fun img => img.id))
        ++ envs.map (fun e => mkImageId e.now)).Nodup) :
    (captureRun envs s).capturedImages
        = s.capturedImages ++ envs.map mkCapturedImage ∧
    ((captureRun envs s).capturedImages.map (fun img => img.id)).Nodup := by
  have heq := captureRun_images envs s hstream hctx
  refine ⟨heq, ?_⟩
  rw [heq, List.map_append, List.map_map]
  exact hids

/-- Witness for C1: two captures at ticks 1 and 2 on a bound feed append
exactly the two records, and the ids img-1, img-2 are distinct. -/
theorem captureRun_appends_all_witness :
    (captureRun [⟨1, "a", true⟩, ⟨2, "b", true⟩]
        ⟨some 0, none, []⟩).capturedImages
      = (⟨some 0, none, []⟩ : CaptureState).capturedImages
        ++ ([⟨1, "a", true⟩, ⟨2, "b", true⟩] : List CaptureEnv).map mkCapturedImage ∧
    ((captureRun [⟨1, "a", true⟩, ⟨2, "b", true⟩]
        ⟨some 0, none, []⟩).capturedImages.map (fun img => img.id)).Nodup :=
  captureRun_appends_all [⟨1, "a", true⟩, ⟨2, "b", true⟩] ⟨some 0, none, []⟩
    (by decide) (by decide) (by decide)

theorem step_exclusive (s : CaptureState) (e : Event)
    (h : SessionErrorExclusive s) : SessionErrorExclusive (step s e) := by
  cases e with
  | start o =>
    by_cases hn : s.stream.isNone = true
    · cases o with
      | success hd => exact Or.inr (by simp [step, hn, startCamera])
      | failure =>
        refine Or.inl ?_
        simp only [step, hn, if_true, startCamera]
        exact Option.isNone_iff_eq_none.mp hn
    · simpa [step, hn] using h
  | stop => exact Or.inl (stopCamera_stream s)
  | capture env =>
    rcases h with h | h
    · exact Or.inl (by simp only [step]; rw [captureImage_stream]; exact h)
    · exact Or.inr (by simp only [step]; rw [captureImage_error]; exact h)
  | toggle id => exact h
  | deleteSel => exact h

theorem run_exclusive (evs : List Event) (s : CaptureState)
    (h : SessionErrorExclusive s) : SessionErrorExclusive (run evs s) := by
  induction evs generalizing s with
  | nil => exact h
  | cons e tl ih => exact ih (step s e) (step_exclusive s e h)

/-- Claim C5: in every state reachable from the initial state by UI
events, the session and the error are never both set; a successful
start() stores the stream with the error cleared, a failed start()
stores the fixed message and leaves the stream as it was (absent at
every reachable call site), and stop() only clears the session. -/
theorem session_error_never_both :
    (∀ evs : List Event, SessionErrorExclusive (run evs initState)) ∧
    (∀ (h : Nat) (s : CaptureState),
      (startCamera (StartOutcome.success h) s).stream = some h ∧
      (startCamera (StartOutcome.success h) s).error = none) ∧
    (∀ s : CaptureState,
      (startCamera StartOutcome.failure s).error = some cameraErrorMessage ∧
      (startCamera StartOutcome.failure s).stream = s.stream) ∧
    (∀ s : CaptureState,
      (stopCamera s).stream = none ∧
      (stopCamera s).error = s.error ∧
      (stopCamera s).capturedImages = s.capturedImages) := by
  refine ⟨?_, ?_, ?_, ?_⟩
  · intro evs
    exact run_exclusive evs initState (Or.inl rfl)
  · intro h s
    exact ⟨rfl, rfl⟩
  · intro s
    exact ⟨rfl, rfl⟩
  · intro s
    exact ⟨stopCamera_stream s, stopCamera_error s, stopCamera_images s⟩

/-- Claim C6: from a state with no active stream, a failed start() sets
the fixed error message and leaves the session absent; a subsequent
successful start() clears the error and sets the session. -/
theorem start_failure_then_success (s : CaptureState) (h : Nat)
    (hs : s.stream = none) :
    (step s (Event.start StartOutcome.failure)).error = some cameraErrorMessage ∧
    (step s (Event.start StartOutcome.failure)).stream = none ∧
    (step (step s (Event.start StartOutcome.failure))
        (Event.start (StartOutcome.success h))).error = none ∧
    (step (step s (Event.start StartOutcome.failure))
        (Event.start (StartOutcome.success h))).stream = some h := by
  simp [step, startCamera, hs]

/-- Witness for C6: the failure-then-success scenario from the initial
state, with stream handle 7. -/
theorem start_failure_then_success_witness :
    (step initState (Event.start StartOutcome.failure)).error
        = some cameraErrorMessage ∧
    (step initState (Event.start StartOutcome.failure)).stream = none ∧
    (step (step initState (Event.start StartOutcome.failure))
        (Event.start (StartOutcome.success 7))).error = none ∧
    (step (step initState (Event.start StartOutcome.failure))
        (Event.start (StartOutcome.success 7))).stream = some 7 :=
  start_failure_then_success initState 7 rfl

/-- Claim C7: stop() is idempotent, capture() right after stop() leaves
the whole state (in particular the Gallery) unchanged, and stop() with
no active session is a no-op. -/
theorem stop_idem_capture_noop (s : CaptureState) (env : CaptureEnv) :
    stopCamera (stopCamera s) = stopCamera s ∧
    captureImage env (stopCamera s) = stopCamera s ∧
    (s.stream = none → stopCamera s = s) :=
  ⟨stopCamera_noop (stopCamera s) (stopCamera_stream s),
   captureImage_noStream env (stopCamera s) (stopCamera_stream s),
   stopCamera_noop s⟩

/-- Witness for C7: stopping twice from a concrete active state equals
stopping once, capturing after the stop changes nothing, and stopping
the already-stopped state is a no-op. -/
theorem stop_idem_capture_noop_witness :
    stopCamera (stopCamera (⟨some 3, none, []⟩ : CaptureState))
        = stopCamera ⟨some 3, none, []⟩ ∧
    captureImage ⟨0, "u", true⟩ (stopCamera (⟨some 3, none, []⟩ : CaptureState))
        = stopCamera ⟨some 3, none, []⟩ ∧
    stopCamera (⟨none, none, []⟩ : CaptureState) = ⟨none, none, []⟩ := by
  obtain ⟨a, b, _⟩ := stop_idem_capture_noop (⟨some 3, none, []⟩ : CaptureState) ⟨0, "u", true⟩
  obtain ⟨_, _, c⟩ := stop_idem_capture_noop (⟨none, none, []⟩ : CaptureState) ⟨0, "u", true⟩
  exact ⟨a, b, c rfl⟩

/-- Claim C8 (counterexample): if the two captures of the scenario fall
in the same Date.now() tick, toggling the first captured id selects both
entries and deleteSelected() empties the Gallery, instead of leaving
exactly the second captured image. -/
theorem scenario_same_tick_empty :
    (run [Event.start (StartOutcome.success 0), Event.capture ⟨0, "u", true⟩,
        Event.capture ⟨0, "v", true⟩, Event.toggle (mkImageId 0), Event.deleteSel]
        initState).capturedImages = [] ∧
    (run [Event.start (StartOutcome.success 0), Event.capture ⟨0, "u", true⟩,
        Event.capture ⟨0, "v", true⟩] initState).capturedImages.length = 2 := by
  decide

/-- Claim C8 (amended): start succeeds, two captures with the drawing
context available and with distinct generated ids (distinct Date.now()
ticks suffice), toggle on the first captured id, then deleteSelected():
the Gallery holds exactly the second captured image, not selected. -/
theorem scenario_two_captures_delete_first (h : Nat) (e1 e2 : CaptureEnv)
    (hc1 : e1.contextAvailable = true) (hc2 : e2.contextAvailable = true)
    (hne : ¬ mkImageId e2.now = mkImageId e1.now) :
    (run [Event.start (StartOutcome.success h), Event.capture e1, Event.capture e2,
        Event.toggle (mkImageId e1.now), Event.deleteSel]
        initState).capturedImages = [mkCapturedImage e2] ∧
    (mkCapturedImage e2).selected = false := by
  refine ⟨?_, rfl⟩
  simp [run, step, initState, startCamera, captureImage, hc1, hc2,
    toggleImageSelection, toggleEntry, deleteSelectedImages, mkCapturedImage, hne]

/-- Witness for C8: the scenario at ticks 1 and 2 with stream handle 0
ends with exactly the second capture, unselected. -/
theorem scenario_two_captures_delete_first_witness :
    (run [Event.start (StartOutcome.success 0), Event.capture ⟨1, "a", true⟩,
        Event.capture ⟨2, "b", true⟩, Event.toggle (mkImageId 1), Event.deleteSel]
        initState).capturedImages = [mkCapturedImage ⟨2, "b", true⟩] ∧
    (mkCapturedImage ⟨2, "b", true⟩).selected = false :=
  scenario_two_captures_delete_first 0 ⟨1, "a", true⟩ ⟨2, "b", true⟩ rfl rfl (by decide)

end CameraApp
